import Mathlib

/-!
# Verification of the voice-to-note transcript-normalization pipeline

Shallow embedding of the transcript reshaping logic of the repository
`dineshkodali/voice-to-note`:

* `src/api/index.js`   — the `/api/upload` route (lines 33-52), which turns a
  raw Deepgram payload into the canonical `transcriptionData` record;
* `src/server/server.js` — the near-duplicate `/api/upload` route (lines
  69-101), which returns only `transcript`/`utterances`/`summary`/`bullets`;
* `src/unnamed/part_000` — the client `handleUpload` (lines 444-447), which
  assigns `id: Date.now().toString()` and caps the history with
  `[newResult, ...prev].slice(0, 20)`.

The raw provider payload is a parsed JSON document, so it is embedded as the
inductive `JVal` (null, booleans, numbers as exact rationals — JSON numerals
are finite decimals — strings, arrays, objects).  The JavaScript expression
forms the routes use are embedded with their JavaScript semantics:

* an expression value is `Option JVal`, `none` standing for `undefined`;
* plain member access `o.f` throws a `TypeError` when `o` is `undefined` or
  `null` (embedded as `Except NormError`), and yields `undefined` on
  primitives (JavaScript boxes them) and on absent fields;
* optional chaining `o?.f` yields `undefined` instead of throwing;
* `a || b` picks `a` when it is truthy (`undefined`, `null`, `false`, `0`,
  `""` are falsy);
* template literals stringify `undefined` as `"undefined"`, while
  `Array.prototype.join` stringifies `undefined`/`null` elements as `""`.

Approximations, none of which is exercised by any theorem below: JavaScript
`ToNumber` on non-integral numeric strings and on arrays/objects is not
modelled (such operands make the embedded comparison false), and the
decimal rendering of non-integral numbers is not JavaScript's shortest-round-
trip form.  The route handlers' `try/catch` maps every `TypeError` thrown by
the extraction to a single 500 response; the spec calls that failure
`MalformedProviderResponse`, embedded as the sole constructor of `NormError`.
-/

/-- A parsed JSON value, as delivered by the transcription provider.
Numbers are exact rationals: every JSON numeral is a finite decimal. -/
inductive JVal where
  | null
  | bool (b : Bool)
  | num (q : ℚ)
  | str (s : String)
  | arr (elems : List JVal)
  | obj (fields : List (String × JVal))

/-- JavaScript truthiness of an expression value (`none` = `undefined`):
`undefined`, `null`, `false`, `0` and `""` are falsy, everything else truthy. -/
def truthy : Option JVal → Bool
  | none => false
  | some .null => false
  | some (.bool b) => b
  | some (.num q) => decide (q ≠ 0)
  | some (.str s) => decide (s ≠ "")
  | some (.arr _) => true
  | some (.obj _) => true

/-- JavaScript `a || b`: `a` when truthy, else `b`. -/
def jsOr (a b : Option JVal) : Option JVal := if truthy a then a else b

/-- JavaScript `ToNumber` on a string, restricted to the integral numeric
strings the embedded code can meet (`none` = `NaN`; `""` converts to `0`). -/
def strToNum (s : String) : Option ℚ :=
  let t := s.trim
  if t = "" then some 0 else (t.toInt?).map fun n => (n : ℚ)

/-- JavaScript `Number`-to-string; exact for the integral values the code
renders (speaker ids), approximate beyond them. -/
def numToStr (q : ℚ) : String :=
  if q.den = 1 then toString q.num else toString q

mutual

/-- JavaScript `String(v)` on a defined value (used by template literals). -/
def jsToStr : JVal → String
  | .null => "null"
  | .bool b => cond b "true" "false"
  | .num q => numToStr q
  | .str s => s
  | .arr xs => String.intercalate "," (jsArrElems xs)
  | .obj _ => "[object Object]"

/-- `Array.prototype.toString` renders elements with `join(",")`,
where a `null` element becomes the empty string. -/
def jsArrElems : List JVal → List String
  | [] => []
  | v :: rest => (match v with | .null => "" | w => jsToStr w) :: jsArrElems rest

end

/-- Template-literal rendering: `undefined` prints as `"undefined"`. -/
def jsToStrOpt : Option JVal → String
  | none => "undefined"
  | some v => jsToStr v

/-- `Array.prototype.join` element rendering: `undefined` and `null`
become the empty string. -/
def joinElemOpt : Option JVal → String
  | none => ""
  | some .null => ""
  | some v => jsToStr v

/-- JavaScript `x > 0` for the values the routes compare (`.length` reads):
`undefined`, `null`, objects and non-numeric strings compare false. -/
def jsGtZero : Option JVal → Bool
  | some (.num q) => decide (0 < q)
  | some (.str s) => (strToNum s).elim false fun q => decide (0 < q)
  | some (.bool b) => b
  | _ => false

/-- The spec's error taxonomy for the normalizer: the one structural failure,
`MalformedProviderResponse`.  In the source it is the `TypeError` thrown by
the extraction chain, which the route's `catch` turns into the 500 reply. -/
inductive NormError where
  | malformedProviderResponse

/-- Plain member access `o.f`: throws on `undefined`/`null`, looks fields up
on objects, exposes `length` on arrays and strings, and yields `undefined`
on the remaining (boxed) primitives. -/
def getMem : Option JVal → String → Except NormError (Option JVal)
  | none, _ => .error .malformedProviderResponse
  | some .null, _ => .error .malformedProviderResponse
  | some (.obj fs), f => .ok (fs.lookup f)
  | some (.arr xs), f => .ok (if f = "length" then some (.num xs.length) else none)
  | some (.str s), f => .ok (if f = "length" then some (.num s.length) else none)
  | some _, _ => .ok none

/-- Plain index access `o[i]`: throws on `undefined`/`null`; arrays index
positionally, objects through the decimal key, strings yield one-character
strings, other primitives `undefined`. -/
def getIdx : Option JVal → Nat → Except NormError (Option JVal)
  | none, _ => .error .malformedProviderResponse
  | some .null, _ => .error .malformedProviderResponse
  | some (.arr xs), i => .ok (xs.get? i)
  | some (.obj fs), i => .ok (fs.lookup (toString i))
  | some (.str s), i => .ok ((s.toList.get? i).map fun c => .str (String.mk [c]))
  | some _, _ => .ok none

/-- Optional member access `o?.f`: `undefined` instead of a throw on
`undefined`/`null`, otherwise as `getMem`. -/
def optMem : Option JVal → String → Option JVal
  | none, _ => none
  | some .null, _ => none
  | some (.obj fs), f => fs.lookup f
  | some (.arr xs), f => if f = "length" then some (.num xs.length) else none
  | some (.str s), f => if f = "length" then some (.num s.length) else none
  | some _, _ => none

/-- Optional index access `o?.[i]`. -/
def optIdx : Option JVal → Nat → Option JVal
  | none, _ => none
  | some .null, _ => none
  | some (.arr xs), i => xs.get? i
  | some (.obj fs), i => fs.lookup (toString i)
  | some (.str s), i => (s.toList.get? i).map fun c => .str (String.mk [c])
  | some _, _ => none

/-! ## The canonical record shapes the two backend variants build -/

/-- One speaker turn, as the routes build it: `speaker` is always a string
(a template literal or the literal `"Speaker"`); `text` is the raw
JavaScript value stored in the object literal — a string on the diarized
path, but the unguarded `transcript` field (possibly `undefined`) on the
fallback path. -/
structure Utterance where
  speaker : String
  text : Option JVal

/-- The `metadata` object of `src/api/index.js` line 51. -/
structure RecMetadata where
  duration : Option JVal
  model : Option JVal
  processedAt : String

/-- The `transcriptionData` object literal of `src/api/index.js`
lines 44-52. -/
structure TranscriptionData where
  id : String
  fileName : String
  transcript : String
  utterances : List Utterance
  summary : Option JVal
  bullets : String
  metadata : RecMetadata

/-- The `res.json({...})` object literal of `src/server/server.js`
lines 95-100. -/
structure ServerResponse where
  transcript : String
  utterances : List Utterance
  summary : Option JVal
  bullets : String

/-- The id/timestamp-independent part of the api route's computation
(`src/api/index.js` lines 33-42). -/
structure CoreData where
  utterances : List Utterance
  transcript : String
  summary : Option JVal
  duration : Option JVal
  model : Option JVal

/-! ## The extraction chain -/

/-- `result.results.channels[0].alternatives[0]`, the mandatory path both
routes walk first. -/
def getAlt0 (raw : JVal) : Except NormError (Option JVal) := do
  let results ← getMem (some raw) "results"
  let channels ← getMem results "channels"
  let ch0 ← getIdx channels 0
  let alts ← getMem ch0 "alternatives"
  getIdx alts 0

/-- `p => ({ speaker: `Speaker ${p.speaker}`,
text: p.sentences.map(s => s.text).join(' ') })` — the paragraph mapper
shared verbatim by both routes.  Calling `.map` on a non-array `sentences`
throws. -/
def mkUtterance (p : JVal) : Except NormError Utterance := do
  let spk ← getMem (some p) "speaker"
  let sents ← getMem (some p) "sentences"
  match sents with
  | some (.arr ss) => do
      let texts ← ss.mapM fun s => getMem (some s) "text"
      .ok ⟨"Speaker " ++ jsToStrOpt spk,
           some (.str (String.intercalate " " (texts.map joinElemOpt)))⟩
  | _ => .error .malformedProviderResponse

/-- The utterance derivation both routes share:
`const paragraphs = alt0.paragraphs?.paragraphs || [];` followed by the
`paragraphs.length > 0` ternary with the flat-`transcript` fallback
(`src/api/index.js` lines 33-36, `src/server/server.js` lines 69-82). -/
def computeUtterances (alt0 : Option JVal) : Except NormError (List Utterance) := do
  let pObj ← getMem alt0 "paragraphs"
  let paragraphs := jsOr (optMem pObj "paragraphs") (some (.arr []))
  let len ← getMem paragraphs "length"
  if jsGtZero len then
    match paragraphs with
    | some (.arr ps) => ps.mapM mkUtterance
    | _ => .error .malformedProviderResponse
  else do
    let tr ← getMem alt0 "transcript"
    .ok [⟨"Speaker", tr⟩]

/-- `u => `[${u.speaker}]: ${u.text}`` — the transcript line formatter
shared by both routes (template-literal semantics on `u.text`). -/
def fmtUtterance (u : Utterance) : String :=
  "[" ++ u.speaker ++ "]: " ++ jsToStrOpt u.text

/-- `alt0.summaries?.[0]?.summary || sentinel` — the summary derivation,
parameterized by the sentinel literal, which is the only difference between
the two routes' copies. -/
def computeSummary (alt0 : Option JVal) (sentinel : String) :
    Except NormError (Option JVal) := do
  let sm ← getMem alt0 "summaries"
  .ok (jsOr (optMem (optIdx sm 0) "summary") (some (.str sentinel)))

/-- `src/api/index.js` lines 33-42: utterances, full transcript, summary
(sentinel `"Summary not available."`), duration and model. -/
def normalizeCore (raw : JVal) : Except NormError CoreData := do
  let alt0 ← getAlt0 raw
  let utterances ← computeUtterances alt0
  let transcript := String.intercalate "\n\n" (utterances.map fmtUtterance)
  let summary ← computeSummary alt0 "Summary not available."
  let meta ← getMem (some raw) "metadata"
  let duration := jsOr (optMem meta "duration") (some (.num 0))
  let modelUsed := jsOr (optMem (optMem meta "model_info") "name") (some (.str "nova-2"))
  .ok ⟨utterances, transcript, summary, duration, modelUsed⟩

/-- The full api route result (`src/api/index.js` lines 33-52).  `idStr` and
`processedAt` stand for the route's `Date.now().toString()` and
`new Date().toISOString()` readings, the only non-inputs of the record. -/
def normalizeApi (raw : JVal) (fileName idStr processedAt : String) :
    Except NormError TranscriptionData :=
  (normalizeCore raw).map fun c =>
    { id := idStr
      fileName := fileName
      transcript := c.transcript
      utterances := c.utterances
      summary := c.summary
      bullets := "Key insights are included in the summary above."
      metadata := { duration := c.duration, model := c.model, processedAt := processedAt } }

/-- The server route result (`src/server/server.js` lines 69-101): same
extraction, its own summary sentinel and bullets literal, and a response
carrying only `transcript`, `utterances`, `summary`, `bullets`. -/
def normalizeServer (raw : JVal) : Except NormError ServerResponse := do
  let alt0 ← getAlt0 raw
  let utterances ← computeUtterances alt0
  let transcript := String.intercalate "\n\n" (utterances.map fmtUtterance)
  let alt0b ← getAlt0 raw
  let summary ← computeSummary alt0b "Summary not available for this audio length or quality."
  .ok ⟨transcript, utterances, summary,
       "Key insights are included in the summary above. Speaker labeling is active in the full transcript."⟩

/-! ## Client-side history handling (`src/unnamed/part_000`) -/

/-- `{ ...response.data, id: Date.now().toString(), fileName: file.name }`
(`src/unnamed/part_000` line 444): the client re-assigns `id` from its own
millisecond clock reading and `fileName` from the picked file. -/
def mkClientRecord (data : TranscriptionData) (now : Nat) (name : String) :
    TranscriptionData :=
  { data with id := toString now, fileName := name }

/-- `setHistory(prev => [newResult, ...prev].slice(0, 20))`
(`src/unnamed/part_000` line 446). -/
def pushHistory (newResult : TranscriptionData) (prev : List TranscriptionData) :
    List TranscriptionData :=
  (newResult :: prev).take 20

/-! ## Field layouts, for the record-shape claim -/

/-- The field names of the `transcriptionData` literal,
`src/api/index.js` lines 44-52, in source order. -/
def apiResponseKeys : List String :=
  ["id", "fileName", "transcript", "utterances", "summary", "bullets", "metadata"]

/-- The field names of its nested `metadata` literal, line 51. -/
def apiMetadataKeys : List String := ["duration", "model", "processedAt"]

/-- The field names of the `res.json({...})` literal,
`src/server/server.js` lines 95-100, in source order. -/
def serverResponseKeys : List String :=
  ["transcript", "utterances", "summary", "bullets"]

/-- The canonical `TranscriptionRecord` field names the spec fixes (§3). -/
def canonicalRecordKeys : List String :=
  ["id", "fileName", "transcript", "utterances", "summary", "bullets", "metadata"]

/-- The canonical `metadata` field names the spec fixes (§3). -/
def canonicalMetadataKeys : List String := ["duration", "model", "processedAt"]

/-! ## Concrete payloads (the spec's §8 scenarios and the probing inputs) -/

/-- The `alternatives[0]` object of scenario 1, extended with the scenario-4
summary; the diarized paragraph has speaker `0` and sentences
`"hello"`, `"world"`. -/
def altParaObj : JVal :=
  .obj [("transcript", .str "hello world"),
        ("paragraphs", .obj [("paragraphs", .arr [
           .obj [("speaker", .num 0),
                 ("sentences", .arr [.obj [("text", .str "hello")],
                                     .obj [("text", .str "world")]])]])]),
        ("summaries", .arr [.obj [("summary", .str "Meeting covered budget.")]])]

/-- Scenario 1/4 payload with metadata: duration 12, model name
`"nova-2-general"`. -/
def rawPara : JVal :=
  .obj [("results", .obj [("channels", .arr [
           .obj [("alternatives", .arr [altParaObj])]])]),
        ("metadata", .obj [("duration", .num 12),
                           ("model_info", .obj [("name", .str "nova-2-general")])])]

/-- Scenario 2: no `paragraphs` key, flat `transcript` only. -/
def rawFlat : JVal :=
  .obj [("results", .obj [("channels", .arr [
           .obj [("alternatives", .arr [
              .obj [("transcript", .str "just one line")]])]])])]

/-- A payload whose `alternatives[0]` is an empty object: no `paragraphs`
and no `transcript` field at all. -/
def rawNoTranscript : JVal :=
  .obj [("results", .obj [("channels", .arr [
           .obj [("alternatives", .arr [.obj []])]])])]

/-- A payload whose `alternatives[0]` is the number `42` — present, but not
an object. -/
def rawAltNum : JVal :=
  .obj [("results", .obj [("channels", .arr [
           .obj [("alternatives", .arr [.num 42])]])])]

/-- Scenario 3: `results` is there but `channels` is missing entirely. -/
def rawNoChannels : JVal := .obj [("results", .obj [])]

/-- A payload whose top-level `metadata.duration` is the (truthy,
non-numeric) string `"fast"`. -/
def rawDurStr : JVal :=
  .obj [("results", .obj [("channels", .arr [
           .obj [("alternatives", .arr [
              .obj [("transcript", .str "hi")]])]])]),
        ("metadata", .obj [("duration", .str "fast")])]

/-- Unpack a known-successful api-route run (used to name concrete records
in closed statements). -/
def runApi (raw : JVal) (fn i t : String) : TranscriptionData :=
  match normalizeApi raw fn i t with
  | .ok r => r
  | .error _ =>
      ⟨"", "", "", [], none, "", ⟨none, none, ""⟩⟩

/-- Unpack a known-successful server-route run. -/
def runServer (raw : JVal) : ServerResponse :=
  match normalizeServer raw with
  | .ok r => r
  | .error _ => ⟨"", [], none, ""⟩

/-! ## A spec-level view of well-formed diarization paragraphs -/

/-- The data a well-formed provider paragraph carries: its `speaker` field
value and the string `text`s of its `sentences`, in order. -/
structure ParaShape where
  speakerV : Option JVal
  texts : List String

/-- The utterance the routes build from a well-formed paragraph. -/
def uttOfShape (d : ParaShape) : Utterance :=
  ⟨"Speaker " ++ jsToStrOpt d.speakerV,
   some (.str (String.intercalate " " d.texts))⟩

/-- Read the string `text`s of a sentence array; `none` when any entry
lacks a string `text`. -/
def decodeSentences : List JVal → Option (List String)
  | [] => some []
  | s :: rest =>
    match getMem (some s) "text" with
    | .ok (some (.str t)) => (decodeSentences rest).map fun ts => t :: ts
    | _ => none

/-- Read a well-formed paragraph: a non-nullish value whose `sentences`
member is an array of sentences with string `text`s. -/
def decodePara (p : JVal) : Option ParaShape :=
  match getMem (some p) "speaker", getMem (some p) "sentences" with
  | .ok spk, .ok (some (.arr ss)) => (decodeSentences ss).map fun ts => ⟨spk, ts⟩
  | _, _ => none

/-- Whether a JavaScript value is an object (array-objects aside). -/
def JVal.isObj : JVal → Bool
  | .obj _ => true
  | _ => false

/-- A 25-deep previous history, for exercising the cap. -/
def histPrev : List TranscriptionData :=
  List.replicate 25 (runApi rawFlat "w.mp3" "0" "t")

/-! ## Helper lemmas -/

@[simp] theorem except_pure_eq {α ε : Type} (a : α) : (pure a : Except ε α) = .ok a := rfl

@[simp] theorem except_bind_ok {α β ε : Type} (a : α) (f : α → Except ε β) :
    (Except.ok a >>= f) = f a := rfl

@[simp] theorem except_bind_error {α β ε : Type} (e : ε) (f : α → Except ε β) :
    ((Except.error e : Except ε α) >>= f) = .error e := rfl

@[simp] theorem except_map_ok {α β ε : Type} (f : α → β) (a : α) :
    (Except.ok a : Except ε α).map f = .ok (f a) := rfl

@[simp] theorem except_map_error {α β ε : Type} (f : α → β) (e : ε) :
    (Except.error e : Except ε α).map f = .error e := rfl

/-- Once one plain member access on `o` has succeeded, every plain member
access on `o` succeeds and agrees with the optional-chaining read. -/
theorem getMem_congr {o v : Option JVal} {f : String}
    (h : getMem o f = .ok v) (g : String) : getMem o g = .ok (optMem o g) := by
  cases o with
  | none => simp [getMem] at h
  | some w => cases w <;> first | rfl | simp [getMem] at h

/-- A successful walk of the mandatory path keeps `raw` readable: any plain
member access on it succeeds and agrees with the optional read. -/
theorem getAlt0_ok_getMem {raw : JVal} {x : Option JVal}
    (h : getAlt0 raw = .ok x) (g : String) :
    getMem (some raw) g = .ok (optMem (some raw) g) := by
  unfold getAlt0 at h
  cases hr : getMem (some raw) "results" with
  | error e => rw [hr] at h; simp at h
  | ok results => exact getMem_congr hr g

/-- A successful utterance derivation keeps `alt0` readable. -/
theorem computeUtterances_ok_getMem {alt0 : Option JVal} {us : List Utterance}
    (h : computeUtterances alt0 = .ok us) (g : String) :
    getMem alt0 g = .ok (optMem alt0 g) := by
  unfold computeUtterances at h
  cases hp : getMem alt0 "paragraphs" with
  | error e => rw [hp] at h; simp at h
  | ok pObj => exact getMem_congr hp g

theorem joinElem_str_map (ts : List String) :
    (ts.map fun t => some (JVal.str t)).map joinElemOpt = ts := by
  induction ts with
  | nil => rfl
  | cons t ts ih => simp [joinElemOpt, jsToStr, ih]

theorem decodeSentences_mapM {ss : List JVal} {ts : List String}
    (h : decodeSentences ss = some ts) :
    ss.mapM (fun s => getMem (some s) "text") = .ok (ts.map fun t => some (.str t)) := by
  induction ss generalizing ts with
  | nil =>
      simp only [decodeSentences, Option.some.injEq] at h
      subst h; rfl
  | cons s rest ih =>
      rw [decodeSentences] at h
      cases hx : getMem (some s) "text" with
      | error e => rw [hx] at h; simp at h
      | ok v =>
          rw [hx] at h
          match v with
          | none => simp at h
          | some .null => simp at h
          | some (.bool b) => simp at h
          | some (.num q) => simp at h
          | some (.arr xs) => simp at h
          | some (.obj fs) => simp at h
          | some (.str t) =>
              cases hrest : decodeSentences rest with
              | none => rw [hrest] at h; simp at h
              | some ts' =>
                  rw [hrest] at h
                  simp at h
                  subst h
                  rw [List.mapM_cons, hx, except_bind_ok, ih hrest, except_bind_ok]
                  rfl

theorem decodePara_mkUtterance {p : JVal} {d : ParaShape}
    (h : decodePara p = some d) : mkUtterance p = .ok (uttOfShape d) := by
  rw [decodePara] at h
  cases hs : getMem (some p) "speaker" with
  | error e => rw [hs] at h; simp at h
  | ok spk =>
      cases hn : getMem (some p) "sentences" with
      | error e => rw [hs, hn] at h; simp at h
      | ok sv =>
          rw [hs, hn] at h
          match sv with
          | none => simp at h
          | some .null => simp at h
          | some (.bool b) => simp at h
          | some (.num q) => simp at h
          | some (.str t) => simp at h
          | some (.obj fs) => simp at h
          | some (.arr ss) =>
              simp only [] at h
              cases hds : decodeSentences ss with
              | none => rw [hds] at h; simp at h
              | some ts =>
                  rw [hds] at h
                  simp at h
                  subst h
                  have hm := decodeSentences_mapM hds
                  unfold mkUtterance
                  rw [hs, except_bind_ok, hn, except_bind_ok]
                  simp only [hm, except_bind_ok, joinElem_str_map]
                  rfl

theorem decodeParas_mapM {ps : List JVal} {ds : List ParaShape}
    (h : ps.mapM decodePara = some ds) :
    ps.mapM mkUtterance = .ok (ds.map uttOfShape) ∧ ds.length = ps.length := by
  induction ps generalizing ds with
  | nil =>
      rw [List.mapM_nil] at h
      simp at h
      subst h; exact ⟨rfl, rfl⟩
  | cons p rest ih =>
      rw [List.mapM_cons] at h
      cases hd : decodePara p with
      | none => rw [hd] at h; simp at h
      | some d =>
          rw [hd] at h
          cases hrest : rest.mapM decodePara with
          | none => rw [hrest] at h; simp at h
          | some ds' =>
              rw [hrest] at h
              simp at h
              subst h
              obtain ⟨ih1, ih2⟩ := ih hrest
              refine ⟨?_, by simp [ih2]⟩
              rw [List.mapM_cons, decodePara_mkUtterance hd, except_bind_ok, ih1,
                  except_bind_ok]
              rfl

/-- The diarized path: with a non-empty array of well-formed paragraphs, the
utterance derivation maps them in order. -/
theorem computeUtterances_paragraphs {alt0 pObj : Option JVal} {ps : List JVal}
    {ds : List ParaShape}
    (hp : getMem alt0 "paragraphs" = .ok pObj)
    (hpp : optMem pObj "paragraphs" = some (.arr ps))
    (hne : ps ≠ [])
    (hdec : ps.mapM decodePara = some ds) :
    computeUtterances alt0 = .ok (ds.map uttOfShape) := by
  have hgt : jsGtZero (some (.num (ps.length : ℚ))) = true := by
    simp only [jsGtZero, decide_eq_true_eq]
    exact_mod_cast Nat.pos_of_ne_zero fun h0 => hne (List.length_eq_zero.mp h0)
  have hor : jsOr (some (.arr ps)) (some (.arr [])) = some (.arr ps) := by
    simp [jsOr, truthy]
  have hlen : getMem (some (.arr ps)) "length" = .ok (some (.num ps.length)) := by
    simp [getMem]
  unfold computeUtterances
  simp only [hp, except_bind_ok, hpp, hor, hlen, hgt, eq_self_iff_true, if_true]
  exact (decodeParas_mapM hdec).1

/-- The fallback path: with `paragraphs.paragraphs` absent or empty, the
derivation is the one synthetic utterance from the raw `transcript` value. -/
theorem computeUtterances_fallback {alt0 pObj : Option JVal}
    (hp : getMem alt0 "paragraphs" = .ok pObj)
    (hpp : optMem pObj "paragraphs" = none ∨ optMem pObj "paragraphs" = some (.arr [])) :
    computeUtterances alt0 = .ok [⟨"Speaker", optMem alt0 "transcript"⟩] := by
  have htr := getMem_congr hp "transcript"
  have hor : jsOr (optMem pObj "paragraphs") (some (.arr [])) = some (.arr []) := by
    rcases hpp with h | h <;> simp [jsOr, truthy, h]
  have hlen : getMem (some (.arr ([] : List JVal))) "length" = .ok (some (.num 0)) := by
    simp [getMem]
  have hgt : jsGtZero (some (.num 0)) = false := by simp [jsGtZero]
  unfold computeUtterances
  simp only [hp, except_bind_ok, hor, hlen, hgt, Bool.false_eq_true, if_false, htr]

/-- Forward evaluation of the api route core under a successful path walk
and utterance derivation. -/
theorem normalizeCore_eq {raw : JVal} {alt0 : Option JVal} {us : List Utterance}
    (h1 : getAlt0 raw = .ok alt0) (h2 : computeUtterances alt0 = .ok us) :
    normalizeCore raw = .ok ⟨us,
      String.intercalate "\n\n" (us.map fmtUtterance),
      jsOr (optMem (optIdx (optMem alt0 "summaries") 0) "summary")
        (some (.str "Summary not available.")),
      jsOr (optMem (optMem (some raw) "metadata") "duration") (some (.num 0)),
      jsOr (optMem (optMem (optMem (some raw) "metadata") "model_info") "name")
        (some (.str "nova-2"))⟩ := by
  have hsm := computeUtterances_ok_getMem h2 "summaries"
  have hmeta := getAlt0_ok_getMem h1 "metadata"
  unfold normalizeCore computeSummary
  simp only [h1, h2, hsm, hmeta, except_bind_ok]

/-- Forward evaluation of the server route under the same hypotheses. -/
theorem normalizeServer_eq {raw : JVal} {alt0 : Option JVal} {us : List Utterance}
    (h1 : getAlt0 raw = .ok alt0) (h2 : computeUtterances alt0 = .ok us) :
    normalizeServer raw = .ok ⟨String.intercalate "\n\n" (us.map fmtUtterance), us,
      jsOr (optMem (optIdx (optMem alt0 "summaries") 0) "summary")
        (some (.str "Summary not available for this audio length or quality.")),
      "Key insights are included in the summary above. Speaker labeling is active in the full transcript."⟩ := by
  have hsm := computeUtterances_ok_getMem h2 "summaries"
  unfold normalizeServer computeSummary
  simp only [h1, h2, hsm, except_bind_ok]

/-- Inversion: a successful api core run determines every component. -/
theorem normalizeCore_ok_inv {raw : JVal} {c : CoreData}
    (h : normalizeCore raw = .ok c) :
    ∃ alt0 us, getAlt0 raw = .ok alt0 ∧ computeUtterances alt0 = .ok us ∧
      c = ⟨us, String.intercalate "\n\n" (us.map fmtUtterance),
        jsOr (optMem (optIdx (optMem alt0 "summaries") 0) "summary")
          (some (.str "Summary not available.")),
        jsOr (optMem (optMem (some raw) "metadata") "duration") (some (.num 0)),
        jsOr (optMem (optMem (optMem (some raw) "metadata") "model_info") "name")
          (some (.str "nova-2"))⟩ := by
  cases h1 : getAlt0 raw with
  | error e => unfold normalizeCore at h; rw [h1] at h; simp at h
  | ok alt0 =>
      cases h2 : computeUtterances alt0 with
      | error e =>
          unfold normalizeCore at h; rw [h1, except_bind_ok, h2] at h; simp at h
      | ok us =>
          have he := normalizeCore_eq h1 h2
          rw [h] at he
          exact ⟨alt0, us, rfl, h2, (Except.ok.injEq _ _).mp he⟩

/-- Inversion: a successful api route run is the assembly of a successful
core run with the caller-supplied id and timestamp. -/
theorem normalizeApi_ok_inv {raw : JVal} {fn i t : String} {rec : TranscriptionData}
    (h : normalizeApi raw fn i t = .ok rec) :
    ∃ c, normalizeCore raw = .ok c ∧
      rec = { id := i, fileName := fn, transcript := c.transcript,
              utterances := c.utterances, summary := c.summary,
              bullets := "Key insights are included in the summary above.",
              metadata := ⟨c.duration, c.model, t⟩ } := by
  unfold normalizeApi at h
  cases hc : normalizeCore raw with
  | error e => rw [hc] at h; simp at h
  | ok c =>
      rw [hc, except_map_ok] at h
      exact ⟨c, rfl, ((Except.ok.injEq _ _).mp h).symm⟩

/-- Inversion: a successful server route run determines every component. -/
theorem normalizeServer_ok_inv {raw : JVal} {resp : ServerResponse}
    (h : normalizeServer raw = .ok resp) :
    ∃ alt0 us, getAlt0 raw = .ok alt0 ∧ computeUtterances alt0 = .ok us ∧
      resp = ⟨String.intercalate "\n\n" (us.map fmtUtterance), us,
        jsOr (optMem (optIdx (optMem alt0 "summaries") 0) "summary")
          (some (.str "Summary not available for this audio length or quality.")),
        "Key insights are included in the summary above. Speaker labeling is active in the full transcript."⟩ := by
  cases h1 : getAlt0 raw with
  | error e => unfold normalizeServer at h; rw [h1] at h; simp at h
  | ok alt0 =>
      cases h2 : computeUtterances alt0 with
      | error e =>
          unfold normalizeServer at h; rw [h1, except_bind_ok, h2] at h; simp at h
      | ok us =>
          have he := normalizeServer_eq h1 h2
          rw [h] at he
          exact ⟨alt0, us, rfl, h2, (Except.ok.injEq _ _).mp he⟩

/-! ## Claim theorems -/

/-- C1: for every raw provider payload whose `alternatives[0]` contains a
non-empty `paragraphs.paragraphs` sequence (of well-formed paragraphs),
both backend variants produce an utterance list of the same length and
order as the paragraph sequence, where each utterance has
`speaker = "Speaker " ++` the paragraph's `speaker` field (rendered to a
string) and `text` = the paragraph's sentence texts joined by single
spaces. -/
theorem c1_diarized_mapping (raw : JVal) (fn i t : String)
    (alt0 pObj : Option JVal) (ps : List JVal) (ds : List ParaShape)
    (h1 : getAlt0 raw = .ok alt0)
    (h2 : getMem alt0 "paragraphs" = .ok pObj)
    (h3 : optMem pObj "paragraphs" = some (.arr ps))
    (h4 : ps ≠ [])
    (h5 : ps.mapM decodePara = some ds) :
    (∃ rec, normalizeApi raw fn i t = .ok rec ∧
       rec.utterances = ds.map uttOfShape ∧
       rec.utterances.length = ps.length) ∧
    (∃ resp, normalizeServer raw = .ok resp ∧
       resp.utterances = ds.map uttOfShape) := by
  have hcu := computeUtterances_paragraphs h2 h3 h4 h5
  have hcore := normalizeCore_eq h1 hcu
  have hlen := (decodeParas_mapM h5).2
  have happ : normalizeApi raw fn i t = .ok
      { id := i, fileName := fn,
        transcript := String.intercalate "\n\n" ((ds.map uttOfShape).map fmtUtterance),
        utterances := ds.map uttOfShape,
        summary := jsOr (optMem (optIdx (optMem alt0 "summaries") 0) "summary")
          (some (.str "Summary not available.")),
        bullets := "Key insights are included in the summary above.",
        metadata := ⟨jsOr (optMem (optMem (some raw) "metadata") "duration") (some (.num 0)),
          jsOr (optMem (optMem (optMem (some raw) "metadata") "model_info") "name")
            (some (.str "nova-2")), t⟩ } := by
    unfold normalizeApi; rw [hcore, except_map_ok]
  refine ⟨⟨_, happ, rfl, ?_⟩, ⟨_, normalizeServer_eq h1 hcu, rfl⟩⟩
  simp [hlen]

/-- C1 witness: the spec's scenario-1 payload yields the single utterance
`Speaker 0` / `"hello world"`. -/
theorem c1_diarized_mapping_witness :
    ∃ rec, normalizeApi rawPara "audio.mp3" "id1" "ts1" = .ok rec ∧
      rec.utterances = [⟨"Speaker 0", some (.str "hello world")⟩] ∧
      rec.utterances.length = 1 := by
  obtain ⟨⟨rec, hok, hutt, hlen⟩, -⟩ :=
    c1_diarized_mapping rawPara "audio.mp3" "id1" "ts1" _ _ _ _ rfl rfl rfl
      (by simp) rfl
  exact ⟨rec, hok, hutt.trans rfl, hlen.trans rfl⟩

/-- C2 counterexample: on a payload whose `alternatives[0]` has neither
`paragraphs` nor `transcript`, the fallback utterance's `text` is the
`undefined` value — not the empty string the claim requires — and the
derived transcript renders it as the literal text `undefined`. -/
theorem c2_counterexample :
    (∃ rec, normalizeApi rawNoTranscript "a.mp3" "id2" "ts2" = .ok rec ∧
       rec.utterances = [⟨"Speaker", none⟩] ∧
       rec.transcript = "[Speaker]: undefined") ∧
    (⟨"Speaker", (none : Option JVal)⟩ : Utterance) ≠ ⟨"Speaker", some (.str "")⟩ := by
  refine ⟨⟨runApi rawNoTranscript "a.mp3" "id2" "ts2", rfl, rfl, rfl⟩, ?_⟩
  intro h
  exact Option.noConfusion (congrArg Utterance.text h)

/-- C2 (amended): when `paragraphs.paragraphs` is absent or empty, both
backend variants produce exactly one utterance with the generic `"Speaker"`
label and `text` equal to the raw `transcript` value of `alternatives[0]` —
which is the `undefined` value, not the empty string, when that field is
absent. -/
theorem c2_fallback_utterance (raw : JVal) (fn i t : String)
    (alt0 pObj : Option JVal)
    (h1 : getAlt0 raw = .ok alt0)
    (h2 : getMem alt0 "paragraphs" = .ok pObj)
    (h3 : optMem pObj "paragraphs" = none ∨
          optMem pObj "paragraphs" = some (.arr [])) :
    (∃ rec, normalizeApi raw fn i t = .ok rec ∧
       rec.utterances = [⟨"Speaker", optMem alt0 "transcript"⟩]) ∧
    (∃ resp, normalizeServer raw = .ok resp ∧
       resp.utterances = [⟨"Speaker", optMem alt0 "transcript"⟩]) := by
  have hcu := computeUtterances_fallback h2 h3
  have hcore := normalizeCore_eq h1 hcu
  constructor
  · exact ⟨_, by unfold normalizeApi; rw [hcore, except_map_ok], rfl⟩
  · exact ⟨_, normalizeServer_eq h1 hcu, rfl⟩

/-- C2 witness: the spec's scenario-2 payload yields the single fallback
utterance `Speaker` / `"just one line"`. -/
theorem c2_fallback_utterance_witness :
    ∃ rec, normalizeApi rawFlat "b.mp3" "id3" "ts3" = .ok rec ∧
      rec.utterances = [⟨"Speaker", some (.str "just one line")⟩] := by
  obtain ⟨⟨rec, hok, hutt⟩, -⟩ :=
    c2_fallback_utterance rawFlat "b.mp3" "id3" "ts3" _ _ rfl rfl (Or.inl rfl)
  exact ⟨rec, hok, hutt.trans rfl⟩

/-- C3 counterexample: a payload whose `alternatives[0]` is the number `42`
— present but not an object — does not fail: both the claim's premise holds
and normalization succeeds, so "absent or not an object implies failure" is
false on the code. -/
theorem c3_counterexample :
    getAlt0 rawAltNum = .ok (some (.num 42)) ∧
    (JVal.num 42).isObj = false ∧
    (∃ rec, normalizeApi rawAltNum "c.mp3" "id4" "ts4" = .ok rec) ∧
    (∃ resp, normalizeServer rawAltNum = .ok resp) :=
  ⟨rfl, rfl, ⟨runApi rawAltNum "c.mp3" "id4" "ts4", rfl⟩, ⟨runServer rawAltNum, rfl⟩⟩

/-- C3 (amended): when the mandatory path `results.channels[0].alternatives[0]`
cannot be walked at all, or yields `undefined` or `null` (absent), both
backend variants fail with `MalformedProviderResponse` and produce no
record; present non-null primitives, however, do not fail. -/
theorem c3_malformed_error (raw : JVal) (fn i t : String)
    (h : getAlt0 raw = .error .malformedProviderResponse ∨
         getAlt0 raw = .ok none ∨ getAlt0 raw = .ok (some .null)) :
    normalizeApi raw fn i t = .error .malformedProviderResponse ∧
    normalizeServer raw = .error .malformedProviderResponse := by
  rcases h with h | h | h
  · constructor
    · unfold normalizeApi normalizeCore
      rw [h]
      rfl
    · unfold normalizeServer
      rw [h]
      rfl
  · constructor
    · unfold normalizeApi normalizeCore
      rw [h]
      rfl
    · unfold normalizeServer
      rw [h]
      rfl
  · constructor
    · unfold normalizeApi normalizeCore
      rw [h]
      rfl
    · unfold normalizeServer
      rw [h]
      rfl

/-- C3 witness: the spec's scenario-3 payload (no `channels` at all) makes
both variants fail with `MalformedProviderResponse`. -/
theorem c3_malformed_error_witness :
    normalizeApi rawNoChannels "d.mp3" "id5" "ts5" = .error .malformedProviderResponse ∧
    normalizeServer rawNoChannels = .error .malformedProviderResponse :=
  c3_malformed_error rawNoChannels "d.mp3" "id5" "ts5" (Or.inl rfl)

/-- C4: for every record either backend variant produces, the `transcript`
field equals the join of its `utterances`, each formatted as
`"[" ++ speaker ++ "]: " ++ text`, separated by a blank line, in utterance
order — i.e. `transcript` is recomputable purely from `utterances`. -/
theorem c4_transcript_derivable (raw : JVal) (fn i t : String) :
    (∀ rec, normalizeApi raw fn i t = .ok rec →
       rec.transcript = String.intercalate "\n\n" (rec.utterances.map fmtUtterance)) ∧
    (∀ resp, normalizeServer raw = .ok resp →
       resp.transcript = String.intercalate "\n\n" (resp.utterances.map fmtUtterance)) := by
  constructor
  · intro rec h
    obtain ⟨c, hc, rfl⟩ := normalizeApi_ok_inv h
    obtain ⟨alt0, us, h1, h2, rfl⟩ := normalizeCore_ok_inv hc
    rfl
  · intro resp h
    obtain ⟨alt0, us, h1, h2, rfl⟩ := normalizeServer_ok_inv h
    rfl

/-- C4 witness: the invariant evaluated on the scenario-1 payload. -/
theorem c4_transcript_derivable_witness :
    (runApi rawPara "e.mp3" "id6" "ts6").transcript =
      String.intercalate "\n\n"
        ((runApi rawPara "e.mp3" "id6" "ts6").utterances.map fmtUtterance) :=
  (c4_transcript_derivable rawPara "e.mp3" "id6" "ts6").1 _ rfl

theorem jsOr_str_sentinel_ne_empty (v : Option JVal) (s : String) (hs : s ≠ "") :
    jsOr v (some (.str s)) ≠ some (.str "") := by
  unfold jsOr
  by_cases ht : truthy v = true
  · rw [if_pos ht]
    intro heq
    rw [heq] at ht
    simp [truthy] at ht
  · rw [if_neg ht]
    intro heq
    simp only [Option.some.injEq, JVal.str.injEq] at heq
    exact hs heq

/-- C5: each backend's output `summary` equals
`alternatives[0].summaries[0].summary` when that value is a non-empty
string, and equals the variant's fixed sentinel when the chain is absent or
its value is the empty string; the output `summary` is never the empty
string. -/
theorem c5_summary_fallback (raw : JVal) (fn i t : String) (alt0 : Option JVal)
    (rec : TranscriptionData) (resp : ServerResponse)
    (h1 : getAlt0 raw = .ok alt0)
    (hrec : normalizeApi raw fn i t = .ok rec)
    (hresp : normalizeServer raw = .ok resp) :
    (∀ s : String, s ≠ "" →
       optMem (optIdx (optMem alt0 "summaries") 0) "summary" = some (.str s) →
       rec.summary = some (.str s) ∧ resp.summary = some (.str s)) ∧
    ((optMem (optIdx (optMem alt0 "summaries") 0) "summary" = none ∨
      optMem (optIdx (optMem alt0 "summaries") 0) "summary" = some (.str "")) →
       rec.summary = some (.str "Summary not available.") ∧
       resp.summary = some (.str "Summary not available for this audio length or quality.")) ∧
    rec.summary ≠ some (.str "") ∧ resp.summary ≠ some (.str "") := by
  obtain ⟨c, hc, rfl⟩ := normalizeApi_ok_inv hrec
  obtain ⟨alt0', us, h1', h2', rfl⟩ := normalizeCore_ok_inv hc
  obtain ⟨alt0'', us'', h1'', h2'', rfl⟩ := normalizeServer_ok_inv hresp
  rw [h1] at h1' h1''
  have e1 : alt0' = alt0 := ((Except.ok.injEq _ _).mp h1').symm
  have e2 : alt0'' = alt0 := ((Except.ok.injEq _ _).mp h1'').symm
  rw [e1, e2]
  refine ⟨?_, ?_, jsOr_str_sentinel_ne_empty _ _ (by decide),
          jsOr_str_sentinel_ne_empty _ _ (by decide)⟩
  · intro s hs hv
    constructor <;> simp [jsOr, truthy, hv, hs]
  · intro hv
    rcases hv with hv | hv <;> constructor <;> simp [jsOr, truthy, hv]

/-- C5 witness: the scenario-4 summary passes through on both variants. -/
theorem c5_summary_fallback_witness :
    (runApi rawPara "f.mp3" "id7" "ts7").summary = some (.str "Meeting covered budget.") ∧
    (runServer rawPara).summary = some (.str "Meeting covered budget.") :=
  (c5_summary_fallback rawPara "f.mp3" "id7" "ts7" _ _ _ rfl rfl rfl).1
    "Meeting covered budget." (by decide) rfl

/-- C6 counterexample: the server variant normalizes successfully yet its
response layout lacks the canonical `id`, `fileName` and `metadata` fields,
so the canonical field set is not preserved identically by every backend
variant. -/
theorem c6_counterexample :
    (∃ resp, normalizeServer rawFlat = .ok resp) ∧
    serverResponseKeys ≠ canonicalRecordKeys :=
  ⟨⟨runServer rawFlat, rfl⟩, by decide⟩

/-- C6 (amended): the api variant's record carries exactly the canonical
field names and `metadata` nesting; the server variant returns only
`transcript`, `utterances`, `summary` and `bullets` — the canonical fields
minus `id`, `fileName` and `metadata` (the client re-adds `id` and
`fileName` itself). -/
theorem c6_field_layout :
    apiResponseKeys = canonicalRecordKeys ∧
    apiMetadataKeys = canonicalMetadataKeys ∧
    serverResponseKeys = canonicalRecordKeys.removeAll ["id", "fileName", "metadata"] :=
  ⟨rfl, rfl, by decide⟩

/-- C7 counterexample: a truthy non-numeric `metadata.duration` (the string
`"fast"`) is passed through unchanged instead of being replaced by 0, so
"defaults to 0 when non-numeric" is false on the code. -/
theorem c7_counterexample :
    optMem (optMem (some rawDurStr) "metadata") "duration" = some (.str "fast") ∧
    (∃ rec, normalizeApi rawDurStr "g.mp3" "id8" "ts8" = .ok rec ∧
       rec.metadata.duration = some (.str "fast")) ∧
    (runApi rawDurStr "g.mp3" "id8" "ts8").metadata.duration ≠ some (.num 0) := by
  refine ⟨rfl, ⟨runApi rawDurStr "g.mp3" "id8" "ts8", rfl, rfl⟩, ?_⟩
  intro h
  rw [show (runApi rawDurStr "g.mp3" "id8" "ts8").metadata.duration
        = some (.str "fast") from rfl] at h
  exact JVal.noConfusion (Option.some.inj h)

/-- C7 (amended): the output `metadata.duration` equals the payload's
top-level `metadata.duration` whenever that value is truthy — numeric or
not, it is passed through unchanged — and equals 0 exactly when the value
is absent or falsy (`undefined`, `null`, `false`, `0`, `""`). -/
theorem c7_duration_passthrough (raw : JVal) (fn i t : String)
    (rec : TranscriptionData)
    (hrec : normalizeApi raw fn i t = .ok rec) :
    (∀ q : ℚ, q ≠ 0 →
       optMem (optMem (some raw) "metadata") "duration" = some (.num q) →
       rec.metadata.duration = some (.num q)) ∧
    (optMem (optMem (some raw) "metadata") "duration" = none →
       rec.metadata.duration = some (.num 0)) ∧
    (truthy (optMem (optMem (some raw) "metadata") "duration") = true →
       rec.metadata.duration = optMem (optMem (some raw) "metadata") "duration") ∧
    (truthy (optMem (optMem (some raw) "metadata") "duration") = false →
       rec.metadata.duration = some (.num 0)) := by
  obtain ⟨c, hc, rfl⟩ := normalizeApi_ok_inv hrec
  obtain ⟨alt0, us, h1, h2, rfl⟩ := normalizeCore_ok_inv hc
  refine ⟨?_, ?_, ?_, ?_⟩
  · intro q hq hv
    simp [jsOr, truthy, hv, hq]
  · intro hv
    simp [jsOr, truthy, hv]
  · intro ht
    simp [jsOr, ht]
  · intro ht
    simp [jsOr, ht]

/-- C7 witness: the numeric duration 12 of the scenario-1 payload passes
through. -/
theorem c7_duration_passthrough_witness :
    (runApi rawPara "h.mp3" "id9" "ts9").metadata.duration = some (.num 12) :=
  (c7_duration_passthrough rawPara "h.mp3" "id9" "ts9" _ rfl).1 12 (by norm_num) rfl

/-- C8: the client record constructor assigns `id = Date.now().toString()`,
so two uploads whose millisecond clock readings coincide yield two distinct
records with the same id — the code violates the claimed per-process id
uniqueness. -/
theorem c8_id_collision :
    (mkClientRecord (runApi rawFlat "x.mp3" "0" "t0") 1736500000000 "a.mp3").id =
      (mkClientRecord (runApi rawFlat "x.mp3" "0" "t0") 1736500000000 "b.mp3").id ∧
    mkClientRecord (runApi rawFlat "x.mp3" "0" "t0") 1736500000000 "a.mp3" ≠
      mkClientRecord (runApi rawFlat "x.mp3" "0" "t0") 1736500000000 "b.mp3" := by
  refine ⟨rfl, ?_⟩
  intro h
  have hf := congrArg TranscriptionData.fileName h
  exact absurd hf (by decide)

/-- C9: the api normalization is deterministic in everything except
identifier and timestamp generation: two runs on the same raw payload and
file name agree on `transcript`, `utterances`, `summary`, `bullets`,
`metadata.duration`, `metadata.model` and `fileName`. -/
theorem c9_deterministic (raw : JVal) (fn i1 t1 i2 t2 : String)
    (r1 r2 : TranscriptionData)
    (h1 : normalizeApi raw fn i1 t1 = .ok r1)
    (h2 : normalizeApi raw fn i2 t2 = .ok r2) :
    r1.transcript = r2.transcript ∧ r1.utterances = r2.utterances ∧
    r1.summary = r2.summary ∧ r1.bullets = r2.bullets ∧
    r1.metadata.duration = r2.metadata.duration ∧
    r1.metadata.model = r2.metadata.model ∧ r1.fileName = r2.fileName := by
  obtain ⟨c, hc, rfl⟩ := normalizeApi_ok_inv h1
  obtain ⟨c', hc', rfl⟩ := normalizeApi_ok_inv h2
  have he : c = c' := by
    rw [hc] at hc'
    exact (Except.ok.injEq _ _).mp hc'
  subst he
  exact ⟨rfl, rfl, rfl, rfl, rfl, rfl, rfl⟩

/-- C9 witness: two runs with different id/timestamp readings on the
scenario-1 payload agree on the content fields. -/
theorem c9_deterministic_witness :
    (runApi rawPara "i.mp3" "idA" "tsA").transcript =
      (runApi rawPara "i.mp3" "idB" "tsB").transcript ∧
    (runApi rawPara "i.mp3" "idA" "tsA").summary =
      (runApi rawPara "i.mp3" "idB" "tsB").summary :=
  ⟨(c9_deterministic rawPara "i.mp3" "idA" "tsA" "idB" "tsB" _ _ rfl rfl).1,
   (c9_deterministic rawPara "i.mp3" "idA" "tsA" "idB" "tsB" _ _ rfl rfl).2.2.1⟩

/-- C10: after every upload the capped UI history holds at most 20 records,
the newest first; positions below the cap coincide with the uncapped
newest-first list and everything beyond the 20 most recent is discarded. -/
theorem c10_history_cap (prev : List TranscriptionData) (r : TranscriptionData) :
    (pushHistory r prev).length ≤ 20 ∧
    (pushHistory r prev).head? = some r ∧
    (∀ i : Nat, i < (pushHistory r prev).length →
       (pushHistory r prev).get? i = (r :: prev).get? i) ∧
    (∀ j : Nat, 20 ≤ j → (pushHistory r prev).get? j = none) := by
  refine ⟨?_, rfl, ?_, ?_⟩
  · simp only [pushHistory, List.length_take]
    exact min_le_left _ _
  · intro i hi
    have hi20 : i < 20 := lt_of_lt_of_le hi
      (by simp only [pushHistory, List.length_take]; exact min_le_left _ _)
    rw [List.get?_eq_getElem?, List.get?_eq_getElem?]
    exact List.getElem?_take_of_lt hi20
  · intro j hj
    apply List.get?_eq_none.mpr
    calc (pushHistory r prev).length ≤ 20 := by
          simp only [pushHistory, List.length_take]; exact min_le_left _ _
      _ ≤ j := hj

/-- C10 witness: pushing onto a 25-record history keeps 20 records, newest
first, and position 22 is gone. -/
theorem c10_history_cap_witness :
    (pushHistory (runApi rawFlat "w.mp3" "1" "t") histPrev).length ≤ 20 ∧
    (pushHistory (runApi rawFlat "w.mp3" "1" "t") histPrev).head? =
      some (runApi rawFlat "w.mp3" "1" "t") ∧
    (pushHistory (runApi rawFlat "w.mp3" "1" "t") histPrev).get? 5 =
      (runApi rawFlat "w.mp3" "1" "t" :: histPrev).get? 5 ∧
    (pushHistory (runApi rawFlat "w.mp3" "1" "t") histPrev).get? 22 = none := by
  obtain ⟨ha, hb, hc, hd⟩ := c10_history_cap histPrev (runApi rawFlat "w.mp3" "1" "t")
  refine ⟨ha, hb, hc 5 ?_, hd 22 (by norm_num)⟩
  simp [pushHistory, histPrev]
